import Mathlib

/-!
Verification of the StarlingX build tooling (`debrepack.py`, `patch/patch_builder.py`,
`utils.py`) against its natural-language specification.

The Python sources are shallowly embedded: pure computations become Lean
functions, stateful code becomes explicit state passing, external collaborators
(shell commands, the network, git queries, file digests) become function
parameters, and fallible code returns `Except`.
-/

namespace Stx

/-! ## PatchBuilder.__sign_and_pack (patch_builder.py, lines 222-243)

`get_md5` (lines 56-66) digests a file with MD5 and returns
`int(md5.hexdigest(), 16)`, i.e. the digest read as a 128-bit integer.
We abstract the file system as a map from file names to their digests
(`md5sum : String → Nat`), constrained to 128-bit values where needed.
-/

/-- The initial accumulator `sig = 0xFFFFFFFFFFFFFFFFFFFFFFFFFFFFFFFF`
of `__sign_and_pack`. -/
def allOnes128 : Nat := 0xFFFFFFFFFFFFFFFFFFFFFFFFFFFFFFFF

/-- The member list built by `__sign_and_pack`: always `metadata.tar` and
`software.tar`, then `pre-install.sh` when a pre-install script is declared,
then `post-install.sh` when a post-install script is declared
(`PATCH_SCRIPTS` names, lines 40-45 and 227-233). -/
def signFilelist (pre_install post_install : Bool) : List String :=
  ["metadata.tar", "software.tar"]
    ++ (if pre_install then ["pre-install.sh"] else [])
    ++ (if post_install then ["post-install.sh"] else [])

/-- The signature loop of `__sign_and_pack` (lines 237-239):
`sig = allOnes; for f in filelist: sig ^= get_md5(f)`. -/
def signAndPackSig (md5sum : String → Nat) (filelist : List String) : Nat :=
  filelist.foldl (fun sig f => sig ^^^ md5sum f) allOnes128

/-- The XOR of the digests of a member list, folded from zero. -/
def xorDigests (md5sum : String → Nat) (filelist : List String) : Nat :=
  (filelist.map md5sum).foldr (· ^^^ ·) 0

/-! ## Parser.download (debrepack.py, lines 643-700)

Per-entry fetch logic shared by the `dl_files` loop (lines 656-678) and the
`dl_path` block (lines 680-700).  The local file system is abstracted as the
optional content of the target file, the digest commands (`sha256sum`,
`md5sum`) as a `digest` function parameter, `get_download_url` (an external
strategy resolver) as a `resolve` parameter, and the `curl` transfer of
`download` (lines 143-151) as a `net` parameter returning the fetched content
or a transport error.
-/

inductive ChecksumAlg
  | sha256
  | md5
deriving DecidableEq, Repr

/-- One `dl_files`/`dl_path` entry of `meta_data.yaml`: its url, its optional
`sha256sum` and its `md5sum` (consulted only when `sha256sum` is absent,
lines 660-666 and 683-689). -/
structure DlFileInfo where
  url : String
  sha256sum : Option String
  md5sum : String
deriving Repr

/-- The declared check: `sha256sum` when declared, else `md5sum`. -/
def declaredCheck (info : DlFileInfo) : ChecksumAlg × String :=
  match info.sha256sum with
  | some s => (ChecksumAlg.sha256, s)
  | none => (ChecksumAlg.md5, info.md5sum)

/-- `checksum` (debrepack.py, lines 131-140): `False` when the file does not
exist, else compare the file's digest with the expected one. -/
def checksum (digest : ChecksumAlg → String → String) (file : Option String)
    (check_sum : String) (cmd : ChecksumAlg) : Bool :=
  match file with
  | none => false
  | some c => digest cmd c == check_sum

/-- Outcome of fetching one entry: the URLs handed to `download` in order,
and either an error or the final content of the target file. -/
structure FetchOutcome where
  calls : List String
  result : Except String (Option String)
deriving Repr

/-- The download phase of one entry (lines 668-676 / 691-698): with a fallback
URL, try the primary and on any exception try the fallback; without one, the
primary's failure propagates. -/
def downloadPhase (net : String → Except String String)
    (dl_url : String) (alt_dl_url : Option String) :
    List String × Except String String :=
  match alt_dl_url with
  | some alt =>
      match net dl_url with
      | Except.ok c => ([dl_url], Except.ok c)
      | Except.error _ =>
          match net alt with
          | Except.ok c => ([dl_url, alt], Except.ok c)
          | Except.error e => ([dl_url, alt], Except.error e)
  | none =>
      match net dl_url with
      | Except.ok c => ([dl_url], Except.ok c)
      | Except.error e => ([dl_url], Except.error e)

/-- One entry of `Parser.download` (lines 656-678): skip when the local file
already passes the declared check; otherwise resolve `(dl_url, alt_dl_url)`,
run the download phase, and re-verify the checksum, raising
`Fail to download` on a persistent mismatch. -/
def downloadEntry (digest : ChecksumAlg → String → String)
    (resolve : String → String × Option String)
    (net : String → Except String String)
    (file : Option String) (info : DlFileInfo) : FetchOutcome :=
  let (check_cmd, check_sum) := declaredCheck info
  if checksum digest file check_sum check_cmd then
    { calls := [], result := Except.ok file }
  else
    let (dl_url, alt_dl_url) := resolve info.url
    match downloadPhase net dl_url alt_dl_url with
    | (calls, Except.error e) => { calls := calls, result := Except.error e }
    | (calls, Except.ok c) =>
        if checksum digest (some c) check_sum check_cmd then
          { calls := calls, result := Except.ok (some c) }
        else
          { calls := calls, result := Except.error "Fail to download" }

/-! ## Parser.set_deb_format (debrepack.py, lines 386-396)

`dpkg-source --print-format` is an external query; its output string is the
input here.  `re.match("1.0", out)` matches when the first character is `1`
and the third is `0` (the `.` of the pattern matches any character except a
newline); otherwise the output is split at the single space into the format
version and the parenthesised format type.
-/

/-- Python `str.strip()`: drop leading and trailing whitespace. -/
def stripWS (s : String) : String :=
  String.mk (((s.data.dropWhile Char.isWhitespace).reverse.dropWhile
    Char.isWhitespace).reverse)

/-- `re.match("1.0", s)` as used on the `dpkg-source --print-format` output. -/
def matchOneDotZero (s : String) : Bool :=
  match s.data with
  | c1 :: c2 :: c3 :: _ => c1 == '1' && c2 != '\n' && c3 == '0'
  | _ => false

/-- Python `str.split(" ")` on the character list: split at every single
space, keeping empty fields. -/
def splitSpace : List Char → List (List Char)
  | [] => [[]]
  | c :: rest =>
      let r := splitSpace rest
      if c == ' ' then [] :: r
      else
        match r with
        | [] => [[c]]
        | g :: gs => (c :: g) :: gs

/-- Python `str.strip("()")`: drop leading and trailing parenthesis characters. -/
def stripParenChars (s : String) : String :=
  let isParen : Char → Bool := fun ch => ch == '(' || ch == ')'
  String.mk (((s.data.dropWhile isParen).reverse.dropWhile isParen).reverse)

/-- `Parser.set_deb_format`: `("1.0", none)` for a legacy tree, else the pair
`(format_ver, format_type)` from `"<ver> (<type>)"`; an output that does not
split into exactly two words fails the tuple unpacking. -/
def set_deb_format (deb_format : String) : Except String (String × Option String) :=
  if matchOneDotZero deb_format then
    Except.ok ("1.0", none)
  else
    match (splitSpace deb_format.data).map String.mk with
    | [format_ver, format_type] =>
        Except.ok (stripWS format_ver, some (stripParenChars format_type))
    | _ => Except.error "cannot unpack format"

/-! ## Parser.apply_src_patches (lines 482-524) and Parser.update_deb_folder
(lines 398-436)

The source tree, its `debian/patches` directory, the `series` file inside it,
the patches applied to working files, and the process-wide current working
directory form the explicit state.  The external `patch -p1` command is a
`patchOk` predicate; a failing command raises, carrying the state at the point
of the raise (so non-restoration of the working directory is observable).
-/

structure TreeState where
  /-- whether `srcdir/debian/patches` exists -/
  patchesDirExists : Bool
  /-- patch files copied into `srcdir/debian/patches`, in copy order -/
  patchesDirFiles : List String
  /-- lines of `srcdir/debian/patches/series` (`none` = file absent) -/
  series : Option (List String)
  /-- patches applied directly to the working tree, in order -/
  applied : List String
  /-- the process-wide current working directory -/
  cwd : String
deriving Repr, DecidableEq

/-- A stripped series line is skipped when it is blank (`patch_file == ""`)
or a comment (`patch_file.startswith('#')`). -/
def skipLine (l : String) : Bool :=
  match l.data with
  | [] => true
  | c :: _ => c == '#'

/-- The effective entries of a series file: each line stripped, comment and
blank lines skipped, order preserved (lines 502-506 / 426-430). -/
def seriesEntries (lines : List String) : List String :=
  (lines.map stripWS).filter (fun l => !skipLine l)

/-- The per-entry loop of `apply_src_patches` (lines 502-521): legacy `1.0`
applies the patch directly; otherwise quilt registers it (copy into
`debian/patches` and append to `series`) and native applies it directly; any
other format type raises `Invalid deb format`. -/
def applySrcLoop (fmt : String × Option String) (patchOk : String → Bool) :
    List String → TreeState → Except (TreeState × String) TreeState
  | [], st => Except.ok st
  | p :: rest, st =>
      if fmt.1 == "1.0" then
        if patchOk p then
          applySrcLoop fmt patchOk rest { st with applied := st.applied ++ [p] }
        else
          Except.error (st, "patch failed")
      else if fmt.2 == some "quilt" then
        applySrcLoop fmt patchOk rest
          { st with
            patchesDirFiles := st.patchesDirFiles ++ [p],
            series := some ((st.series.getD []) ++ [p]) }
      else if fmt.2 == some "native" then
        if patchOk p then
          applySrcLoop fmt patchOk rest { st with applied := st.applied ++ [p] }
        else
          Except.error (st, "patch failed")
      else
        Except.error (st, "Invalid deb format")

/-- `Parser.apply_src_patches`: no series file means nothing to do; otherwise
ensure `debian/patches` and an empty `series` exist (lines 494-498), save the
working directory, change into the source tree, process the effective series
entries, and change back (lines 500-524). -/
def apply_src_patches (srcdir : String) (fmt : String × Option String)
    (seriesLines : Option (List String)) (patchOk : String → Bool)
    (st : TreeState) : Except (TreeState × String) TreeState :=
  match seriesLines with
  | none => Except.ok st
  | some lines =>
      let st1 := if st.patchesDirExists then st
        else { st with patchesDirExists := true, series := some [] }
      let pwd := st1.cwd
      let st2 := { st1 with cwd := srcdir }
      match applySrcLoop fmt patchOk (seriesEntries lines) st2 with
      | Except.error e => Except.error e
      | Except.ok st3 => Except.ok { st3 with cwd := pwd }

/-- The per-entry loop of `update_deb_folder` (lines 426-433): every effective
entry is applied directly with `patch -p1`, with no branch on the format. -/
def directApplyLoop (patchOk : String → Bool) :
    List String → TreeState → Except (TreeState × String) TreeState
  | [], st => Except.ok st
  | p :: rest, st =>
      if patchOk p then
        directApplyLoop patchOk rest { st with applied := st.applied ++ [p] }
      else
        Except.error (st, "patch failed")

/-- The patch-handling tail of `Parser.update_deb_folder` (lines 411-436):
no overlay series file means nothing to do; a `3.0 (quilt)` tree returns
early with nothing applied; every other format applies every effective series
entry directly to the working tree, with the same working-directory dance. -/
def update_deb_folder_patches (srcdir : String) (fmt : String × Option String)
    (seriesLines : Option (List String)) (patchOk : String → Bool)
    (st : TreeState) : Except (TreeState × String) TreeState :=
  match seriesLines with
  | none => Except.ok st
  | some lines =>
      if fmt.2 == some "quilt" && fmt.1 == "3.0" then
        Except.ok st
      else
        let pwd := st.cwd
        let st1 := { st with cwd := srcdir }
        match directApplyLoop patchOk (seriesEntries lines) st1 with
        | Except.error e => Except.error e
        | Except.ok st2 => Except.ok { st2 with cwd := pwd }

/-! ## PatchBuilder.build_patch (patch_builder.py, lines 68-136)

The fetch phase is an external collaborator; its effect is the list of files
left in the `downloads/binary` area (`dlFiles`).  `os.path.isfile` is the
`isfile` parameter, and the `get_files_from_deb` extraction (which can raise
`FileNotFoundError`, lines 184-210) is summarised by the `debScripts`
parameter.  The outcome records both the value the Python function produces
and the final process working directory (build_patch does `os.chdir(tmpdir)`
at line 84 and never changes back).
-/

inductive BuildResult
  /-- the `return False` of line 80 (`No debs fetched`) -/
  | returnedFalse
  /-- the bundle packed at `PATCH_OUTPUT/patch_name` (lines 258-269) -/
  | bundle (path : String)
deriving Repr, DecidableEq

structure BuildOutcome where
  result : BuildResult
  cwd : String
deriving Repr, DecidableEq

/-- `copy_rename_script` (lines 138-165) for a declared lifecycle script:
raises `FileNotFoundError` when the path is not a file. -/
def scriptCheck (isfile : String → Bool) (script : Option String) :
    Except String Unit :=
  match script with
  | none => Except.ok ()
  | some p =>
      if isfile p then Except.ok ()
      else Except.error ("Install script " ++ p ++ " not found")

/-- `PatchBuilder.build_patch`: after the fetch phase, an empty download area
makes the function `return False`; otherwise it changes into a fresh temporary
directory, packs `software.tar`, copies the declared lifecycle scripts
(raising when one is missing), extracts the embedded scripts when the
`software` package is among the required ones (raising when that fails),
packs `metadata.tar` and signs and packs the bundle at
`PATCH_OUTPUT/patch_name`. -/
def buildPatch (initialCwd tmpdir patch_output patch_name : String)
    (dlFiles : List String) (pre_install post_install : Option String)
    (isfile : String → Bool) (stx_packages : List String)
    (debScripts : Except String (List String)) : Except String BuildOutcome :=
  if dlFiles.isEmpty then
    Except.ok ⟨BuildResult.returnedFalse, initialCwd⟩
  else
    match scriptCheck isfile pre_install with
    | Except.error e => Except.error e
    | Except.ok _ =>
        match scriptCheck isfile post_install with
        | Except.error e => Except.error e
        | Except.ok _ =>
            match
              if stx_packages.contains "software" then debScripts
              else Except.ok [] with
            | Except.error e => Except.error e
            | Except.ok _ =>
                Except.ok ⟨BuildResult.bundle (patch_output ++ "/" ++ patch_name), tmpdir⟩

/-! ## Version parsing (Parser.setup, debrepack.py, lines 245-248)

`BaseVersion` (python-debian, an external collaborator) splits a Debian
version string into epoch, upstream version, and debian revision: the epoch
is the run of digits before the first `:` when present, and the debian
revision is everything after the last `-` (the revision character class
excludes `-`).
-/

/-- Split the optional epoch: a nonempty all-digit run before a leading
`:`. -/
def splitEpoch (s : String) : Option String × String :=
  let ep := s.data.takeWhile Char.isDigit
  match s.data.dropWhile Char.isDigit with
  | ':' :: tail => if ep.isEmpty then (none, s) else (some (String.mk ep), String.mk tail)
  | _ => (none, s)

/-- Split the optional debian revision: everything after the last `-`. -/
def splitRev (s : String) : String × Option String :=
  if s.data.contains '-' then
    let rev := s.data.reverse
    (String.mk ((rev.dropWhile (fun c => c != '-')).drop 1).reverse,
      some (String.mk (rev.takeWhile (fun c => c != '-')).reverse))
  else
    (s, none)

/-- `BaseVersion(debver)`: `(epoch, upstream_version, debian_revision)`. -/
def parseDebVersion (s : String) : Option String × String × Option String :=
  let (ep, rest) := splitEpoch s
  let (up, rev) := splitRev rest
  (ep, up, rev)

/-! ## Parser.set_revision (debrepack.py, lines 276-332)

The external `git rev-list --count` / `git status --porcelain | wc -l`
queries are a `GitQueries` parameter; the `revision` block of
`meta_data.yaml` is a structure mirroring the keys the code reads.
A missing required companion key raises, as does a non-integer `stx_patch`.
-/

structure GitQueries where
  /-- `git rev-list --count HEAD .` run in a path -/
  revListAll : String → Nat
  /-- `git rev-list --count BASE..HEAD .` run in a path -/
  revListFrom : String → String → Nat
  /-- `git status --porcelain . | wc -l` run in a path -/
  statusCount : String → Nat

/-- The `GITREVCOUNT` sub-block: `SRC_DIR` and `BASE_SRCREV` are both
required. -/
structure GitRevCountData where
  srcDir : Option String
  baseSrcRev : Option String

/-- The `SRC_GITREVCOUNT` sub-block with its optional `SRC_BASE_SRCREV`. -/
structure SrcGitRevCountData where
  srcBaseSrcRev : Option String

/-- The declared `stx_patch` value: an int, or some other YAML type. -/
inductive StxPatchVal
  | intVal (k : Int)
  | nonInt

/-- The `revision` block of `meta_data.yaml`. -/
structure RevisionData where
  /-- effective `dist` string (absent or null key both behave as `""`) -/
  dist : Option String
  /-- `PKG_GITREVCOUNT` key present -/
  pkgGitRevCount : Bool
  /-- `PKG_BASE_SRCREV` key -/
  pkgBaseSrcRev : Option String
  srcGitRevCount : Option SrcGitRevCountData
  gitRevCount : Option GitRevCountData
  stxPatch : Option StxPatchVal

/-- The metadata fields `set_revision` consults. -/
structure MetaDataModel where
  src_path : Option String
  revision : Option RevisionData

/-- The `PKG_GITREVCOUNT` contribution (lines 295-300): commits touching the
debian folder (all of history, or since `PKG_BASE_SRCREV`), plus the
uncommitted-change count there. -/
def pkgContribution (git : GitQueries) (debfolder : String) (rd : RevisionData) : Int :=
  if rd.pkgGitRevCount then
    (match rd.pkgBaseSrcRev with
      | some base => (git.revListFrom debfolder base : Int)
      | none => (git.revListAll debfolder : Int))
      + (git.statusCount debfolder : Int)
  else 0

/-- The `SRC_GITREVCOUNT` contribution (lines 302-312): raises when no
`src_path` is declared; otherwise commits touching the source path (all of
history, or since `SRC_BASE_SRCREV`), plus the uncommitted-change count
there. -/
def srcContribution (git : GitQueries) (md : MetaDataModel) (rd : RevisionData) :
    Except String Int :=
  match rd.srcGitRevCount with
  | none => Except.ok 0
  | some s =>
      match md.src_path with
      | none => Except.error "SRC_GITREVCOUNT is set, but no src_path in meta_data.yaml"
      | some src_path =>
          Except.ok
            ((match s.srcBaseSrcRev with
              | some base => (git.revListFrom src_path base : Int)
              | none => (git.revListAll src_path : Int))
              + (git.statusCount src_path : Int))

/-- The `GITREVCOUNT` contribution (lines 314-324): `SRC_DIR` and
`BASE_SRCREV` are both required; commits since the base plus the
uncommitted-change count in the directory. -/
def gitRevContribution (git : GitQueries) (rd : RevisionData) : Except String Int :=
  match rd.gitRevCount with
  | none => Except.ok 0
  | some g =>
      match g.srcDir with
      | none => Except.error "Not set SRC_DIR in GITREVCOUNT"
      | some src_dir =>
          match g.baseSrcRev with
          | none => Except.error "Not set BASE_SRCREV in GITREVCOUNT"
          | some base =>
              Except.ok ((git.revListFrom src_dir base : Int)
                + (git.statusCount src_dir : Int))

/-- The `stx_patch` contribution (lines 326-330): must be an int. -/
def stxContribution (rd : RevisionData) : Except String Int :=
  match rd.stxPatch with
  | none => Except.ok 0
  | some StxPatchVal.nonInt => Except.error "The stx_patch in meta_data.yaml is not an int value"
  | some (StxPatchVal.intVal k) => Except.ok k

/-- The accumulated revision integer of `set_revision` for a present
`revision` block, in the code's evaluation order. -/
def revisionTotal (git : GitQueries) (debfolder : String) (md : MetaDataModel)
    (rd : RevisionData) : Except String Int :=
  match srcContribution git md rd with
  | Except.error e => Except.error e
  | Except.ok b =>
      match gitRevContribution git rd with
      | Except.error e => Except.error e
      | Except.ok c =>
          match stxContribution rd with
          | Except.error e => Except.error e
          | Except.ok d => Except.ok (pkgContribution git debfolder rd + b + c + d)

/-- `Parser.set_revision`: the empty string when no `revision` block is
declared (lines 280-281), else the optional distribution tag, a dot, and the
accumulated revision integer (line 332). -/
def set_revision (git : GitQueries) (debfolder : String) (md : MetaDataModel) :
    Except String String :=
  match md.revision with
  | none => Except.ok ""
  | some rd =>
      match revisionTotal git debfolder md rd with
      | Except.error e => Except.error e
      | Except.ok t => Except.ok (rd.dist.getD "" ++ "." ++ toString t)

/-- The changelog version written by `Parser.package` (lines 792-793): the
version reported from the changelog with the revision suffix appended. -/
def changelog_version (ver suffix : String) : String :=
  ver ++ suffix

/-- Increase of the `PKG_GITREVCOUNT` contribution when the uncommitted-change
count under `p` grows by one. -/
def pkgDelta (debfolder : String) (rd : RevisionData) (p : String) : Int :=
  if rd.pkgGitRevCount ∧ debfolder = p then 1 else 0

/-- Increase of the `SRC_GITREVCOUNT` contribution when the uncommitted-change
count under `p` grows by one. -/
def srcDelta (md : MetaDataModel) (rd : RevisionData) (p : String) : Int :=
  match rd.srcGitRevCount, md.src_path with
  | some _, some sp => if sp = p then 1 else 0
  | _, _ => 0

/-- Increase of the `GITREVCOUNT` contribution when the uncommitted-change
count under `p` grows by one. -/
def gitRevDelta (rd : RevisionData) (p : String) : Int :=
  match rd.gitRevCount with
  | some g =>
      match g.srcDir, g.baseSrcRev with
      | some d, some _ => if d = p then 1 else 0
      | _, _ => 0
  | none => 0

/-! ## Parser.package prologue (debrepack.py, lines 745-751)

After `setup`, `package` removes any pre-existing per-package work directory
(`shutil.rmtree`) and recreates it empty (`os.mkdir`) before `set_build_type`
and origin resolution run.  The file system is a predicate on paths.
-/

/-- Whether path `x` lies at or below directory `d`. -/
def underDir (d x : String) : Bool :=
  x == d || List.isPrefixOf (d.data ++ [Char.ofNat 47]) x.data

/-- `shutil.rmtree(d)`: remove `d` and everything below it. -/
def rmtree (fs : String → Bool) (d : String) : String → Bool :=
  fun x => if underDir d x then false else fs x

/-- `os.mkdir(d)`: raises `FileExistsError` when `d` exists, else creates the
single (empty) directory `d`. -/
def mkdir (fs : String → Bool) (d : String) : Except String (String → Bool) :=
  if fs d then Except.error "FileExistsError"
  else Except.ok (fun x => if x = d then true else fs x)

/-- Lines 749-751 of `Parser.package`: `if exists(packdir): rmtree(packdir);
os.mkdir(packdir)`. -/
def packagePrepare (fs : String → Bool) (packdir : String) :
    Except String (String → Bool) :=
  mkdir (if fs packdir then rmtree fs packdir else fs) packdir

lemma foldl_xor_eq (md5sum : String → Nat) (filelist : List String) :
    ∀ a : Nat, filelist.foldl (fun sig f => sig ^^^ md5sum f) a
      = a ^^^ xorDigests md5sum filelist := by
  induction filelist with
  | nil => intro a; simp [xorDigests]
  | cons f fs ih =>
      intro a
      simp only [List.foldl_cons, xorDigests, List.map_cons, List.foldr_cons]
      rw [ih]
      rw [Nat.xor_assoc]
      rfl

lemma signAndPackSig_eq (md5sum : String → Nat) (filelist : List String) :
    signAndPackSig md5sum filelist = allOnes128 ^^^ xorDigests md5sum filelist :=
  foldl_xor_eq md5sum filelist allOnes128

lemma xorDigests_cons (md5sum : String → Nat) (f : String) (fs : List String) :
    xorDigests md5sum (f :: fs) = md5sum f ^^^ xorDigests md5sum fs := rfl

lemma xorDigests_perm (md5sum : String → Nat) {l₁ l₂ : List String}
    (h : l₁.Perm l₂) : xorDigests md5sum l₁ = xorDigests md5sum l₂ := by
  induction h with
  | nil => rfl
  | cons x _ ih => rw [xorDigests_cons, xorDigests_cons, ih]
  | swap x y l =>
      rw [xorDigests_cons, xorDigests_cons, xorDigests_cons, xorDigests_cons,
        ← Nat.xor_assoc, ← Nat.xor_assoc, Nat.xor_comm (md5sum y) (md5sum x)]
  | trans _ _ ih₁ ih₂ => rw [ih₁, ih₂]

lemma xorDigests_lt (md5sum : String → Nat) (l : List String)
    (h : ∀ f, md5sum f < 2 ^ 128) : xorDigests md5sum l < 2 ^ 128 := by
  induction l with
  | nil => simp [xorDigests]
  | cons f fs ih => exact Nat.xor_lt_two_pow (h f) ih

lemma allOnes128_lt : allOnes128 < 2 ^ 128 := by decide

/-- C1: the aggregate bundle signature of `__sign_and_pack` is the XOR-fold of
the members' 128-bit MD5 digests into an all-ones 128-bit accumulator; it is
invariant under permutation of the member list, and a member repeated twice
cancels out of the signature. -/
theorem sign_and_pack_xor_fold (md5sum : String → Nat)
    (h128 : ∀ f, md5sum f < 2 ^ 128) :
    (∀ pre post : Bool,
      signAndPackSig md5sum (signFilelist pre post)
          = allOnes128 ^^^ xorDigests md5sum (signFilelist pre post)
        ∧ signAndPackSig md5sum (signFilelist pre post) < 2 ^ 128)
    ∧ (∀ l₁ l₂ : List String, l₁.Perm l₂ →
        signAndPackSig md5sum l₁ = signAndPackSig md5sum l₂)
    ∧ (∀ f l, signAndPackSig md5sum (f :: f :: l) = signAndPackSig md5sum l) := by
  refine ⟨fun pre post => ⟨signAndPackSig_eq md5sum _, ?_⟩, fun l₁ l₂ h => ?_, fun f l => ?_⟩
  · rw [signAndPackSig_eq]
    exact Nat.xor_lt_two_pow allOnes128_lt (xorDigests_lt md5sum _ h128)
  · rw [signAndPackSig_eq, signAndPackSig_eq, xorDigests_perm md5sum h]
  · rw [signAndPackSig_eq, signAndPackSig_eq, xorDigests_cons, xorDigests_cons,
      ← Nat.xor_assoc (md5sum f), Nat.xor_self, Nat.zero_xor]

/-- Witness for C1 at a concrete digest map: the digest map sending every file
to 3 is 128-bit bounded, and the theorem applies. -/
theorem sign_and_pack_xor_fold_witness :
    (∀ f : String, (fun _ : String => (3 : Nat)) f < 2 ^ 128)
    ∧ ((∀ pre post : Bool,
        signAndPackSig (fun _ => 3) (signFilelist pre post)
            = allOnes128 ^^^ xorDigests (fun _ => 3) (signFilelist pre post)
          ∧ signAndPackSig (fun _ => 3) (signFilelist pre post) < 2 ^ 128)
      ∧ (∀ l₁ l₂ : List String, l₁.Perm l₂ →
          signAndPackSig (fun _ => 3) l₁ = signAndPackSig (fun _ => 3) l₂)
      ∧ (∀ f l, signAndPackSig (fun _ => 3) (f :: f :: l)
          = signAndPackSig (fun _ => 3) l)) :=
  ⟨fun _ => by norm_num, sign_and_pack_xor_fold (fun _ => 3) (fun _ => by norm_num)⟩

/-- C2: when the target file exists and its checksum (sha256 when declared,
else md5) already equals the declared digest, the fetch performs no network
download and returns successfully with the file unchanged. -/
theorem download_checksum_skip (digest : ChecksumAlg → String → String)
    (resolve : String → String × Option String)
    (net : String → Except String String)
    (c : String) (info : DlFileInfo)
    (hmatch : digest (declaredCheck info).1 c = (declaredCheck info).2) :
    downloadEntry digest resolve net (some c) info
      = { calls := [], result := Except.ok (some c) } := by
  unfold downloadEntry
  have : checksum digest (some c) (declaredCheck info).2 (declaredCheck info).1 = true := by
    simp [checksum, hmatch]
  simp only [this, if_true]

/-- Witness for C2: a concrete entry whose local content digests to the
declared sha256 value is skipped. -/
theorem download_checksum_skip_witness :
    ((fun _ : ChecksumAlg => fun c : String => c)
        (declaredCheck ⟨"http://u", some "abc", "m"⟩).1 "abc"
      = (declaredCheck ⟨"http://u", some "abc", "m"⟩).2)
    ∧ downloadEntry (fun _ c => c) (fun u => (u, none))
        (fun _ => Except.error "offline") (some "abc") ⟨"http://u", some "abc", "m"⟩
      = { calls := [], result := Except.ok (some "abc") } :=
  ⟨rfl, download_checksum_skip (fun _ c => c) (fun u => (u, none))
    (fun _ => Except.error "offline") "abc" ⟨"http://u", some "abc", "m"⟩ rfl⟩

/-- C4: when the local checksum does not already match — with a fallback URL,
a primary failure leads to the fallback being attempted; with no fallback, the
primary failure propagates; and in all cases, whenever the download phase
completes (through the primary or through the fallback) with content whose
checksum still mismatches the declared digest, the fetch raises
`Fail to download` without any further fallback attempt: the call list stays
exactly the one of the completed phase. -/
theorem download_fallback_and_terminal_mismatch
    (digest : ChecksumAlg → String → String)
    (resolve : String → String × Option String)
    (net : String → Except String String)
    (file : Option String) (info : DlFileInfo)
    (hmiss : checksum digest file (declaredCheck info).2 (declaredCheck info).1 = false) :
    (∀ p a e, resolve info.url = (p, some a) → net p = Except.error e →
      (downloadEntry digest resolve net file info).calls = [p, a])
    ∧ (∀ p e, resolve info.url = (p, none) → net p = Except.error e →
      downloadEntry digest resolve net file info
        = { calls := [p], result := Except.error e })
    ∧ (∀ p alt calls c, resolve info.url = (p, alt) →
      downloadPhase net p alt = (calls, Except.ok c) →
      digest (declaredCheck info).1 c ≠ (declaredCheck info).2 →
      downloadEntry digest resolve net file info
        = { calls := calls, result := Except.error "Fail to download" }) := by
  refine ⟨fun p a e hres hnet => ?_, fun p e hres hnet => ?_,
    fun p alt calls c hres hphase hbad => ?_⟩
  · unfold downloadEntry
    simp only [hmiss, Bool.false_eq_true, if_false, hres, downloadPhase, hnet]
    cases hna : net a with
    | ok c => simp only [hna]; split <;> rfl
    | error e2 => simp only [hna]
  · unfold downloadEntry
    simp only [hmiss, Bool.false_eq_true, if_false, hres, downloadPhase, hnet]
  · have hpost : checksum digest (some c) (declaredCheck info).2 (declaredCheck info).1 = false := by
      simp [checksum, hbad]
    unfold downloadEntry
    simp only [hmiss, Bool.false_eq_true, if_false, hres, hphase, hpost]

/-- Witness for C4: a concrete entry with no usable local file, so the
mismatch hypothesis is discharged and the theorem applies. -/
theorem download_fallback_and_terminal_mismatch_witness :
    checksum (fun _ c => c) none
        (declaredCheck ⟨"http://u", none, "w"⟩).2 (declaredCheck ⟨"http://u", none, "w"⟩).1 = false
    ∧ ((∀ p a e, (fun u : String => (u, some (u ++ ".alt"))) "http://u" = (p, some a) →
          (fun _ : String => (Except.error "down" : Except String String)) p = Except.error e →
          (downloadEntry (fun _ c => c) (fun u => (u, some (u ++ ".alt")))
            (fun _ => Except.error "down") none ⟨"http://u", none, "w"⟩).calls = [p, a])
      ∧ (∀ p e, (fun u : String => (u, some (u ++ ".alt"))) "http://u" = (p, none) →
          (fun _ : String => (Except.error "down" : Except String String)) p = Except.error e →
          downloadEntry (fun _ c => c) (fun u => (u, some (u ++ ".alt")))
            (fun _ => Except.error "down") none ⟨"http://u", none, "w"⟩
            = { calls := [p], result := Except.error e })
      ∧ (∀ p alt calls c, (fun u : String => (u, some (u ++ ".alt"))) "http://u" = (p, alt) →
          downloadPhase (fun _ => Except.error "down") p alt = (calls, Except.ok c) →
          (fun _ : ChecksumAlg => fun c : String => c)
              (declaredCheck ⟨"http://u", none, "w"⟩).1 c
            ≠ (declaredCheck ⟨"http://u", none, "w"⟩).2 →
          downloadEntry (fun _ c => c) (fun u => (u, some (u ++ ".alt")))
            (fun _ => Except.error "down") none ⟨"http://u", none, "w"⟩
            = { calls := calls, result := Except.error "Fail to download" })) :=
  ⟨rfl, download_fallback_and_terminal_mismatch (fun _ c => c)
    (fun u => (u, some (u ++ ".alt"))) (fun _ => Except.error "down")
    none ⟨"http://u", none, "w"⟩ rfl⟩

/-- C3: with a series file whose effective entries are `p1` then `p2`:
on a `3.0 (quilt)` tree (as detected by `set_deb_format`), both patches are
copied into `debian/patches` — created together with an empty `series` file
when absent — and registered in the series file in order, with neither applied
to working files; on a legacy `1.0` or `3.0 (native)` tree, both patches are
applied directly to the working tree and the existing series file is left
unmodified. -/
theorem apply_src_patches_format_behavior
    (srcdir : String) (lines : List String) (p1 p2 : String)
    (patchOk : String → Bool) (st : TreeState)
    (hs : seriesEntries lines = [p1, p2]) :
    (set_deb_format "3.0 (quilt)" = Except.ok ("3.0", some "quilt")
      ∧ (st.patchesDirExists = false →
          apply_src_patches srcdir ("3.0", some "quilt") (some lines) patchOk st
            = Except.ok
                { st with patchesDirExists := true,
                          patchesDirFiles := st.patchesDirFiles ++ [p1, p2],
                          series := some [p1, p2] }))
    ∧ (set_deb_format "1.0" = Except.ok ("1.0", none)
      ∧ set_deb_format "3.0 (native)" = Except.ok ("3.0", some "native")
      ∧ (∀ fmt : String × Option String,
          fmt = ("1.0", none) ∨ fmt = ("3.0", some "native") →
          patchOk p1 = true → patchOk p2 = true →
          st.patchesDirExists = true →
          apply_src_patches srcdir fmt (some lines) patchOk st
            = Except.ok { st with applied := st.applied ++ [p1, p2] })) := by
  refine ⟨⟨rfl, fun hdir => ?_⟩, rfl, rfl, fun fmt hfmt hp1 hp2 hdir => ?_⟩
  · simp only [apply_src_patches, hdir, if_false, hs, applySrcLoop]
    simp [List.append_assoc]
  · rcases hfmt with h | h <;> subst h <;>
      simp [apply_src_patches, hdir, hs, applySrcLoop, hp1, hp2, List.append_assoc]

/-- Witness for C3: a concrete series file with exactly the two entries
`p1.patch` and `p2.patch` (plus a comment and a blank line, which are
skipped), on a concrete tree state. -/
theorem apply_src_patches_format_behavior_witness :
    seriesEntries ["# comment", "p1.patch", "", "p2.patch"] = ["p1.patch", "p2.patch"]
    ∧ ((set_deb_format "3.0 (quilt)" = Except.ok ("3.0", some "quilt")
      ∧ ((⟨false, [], none, [], "/top"⟩ : TreeState).patchesDirExists = false →
          apply_src_patches "srcd" ("3.0", some "quilt")
              (some ["# comment", "p1.patch", "", "p2.patch"]) (fun _ => true)
              ⟨false, [], none, [], "/top"⟩
            = Except.ok ⟨true, ["p1.patch", "p2.patch"],
                some ["p1.patch", "p2.patch"], [], "/top"⟩))
    ∧ (set_deb_format "1.0" = Except.ok ("1.0", none)
      ∧ set_deb_format "3.0 (native)" = Except.ok ("3.0", some "native")
      ∧ (∀ fmt : String × Option String,
          fmt = ("1.0", none) ∨ fmt = ("3.0", some "native") →
          (fun _ : String => true) "p1.patch" = true →
          (fun _ : String => true) "p2.patch" = true →
          (⟨false, [], none, [], "/top"⟩ : TreeState).patchesDirExists = true →
          apply_src_patches "srcd" fmt
              (some ["# comment", "p1.patch", "", "p2.patch"]) (fun _ => true)
              ⟨false, [], none, [], "/top"⟩
            = Except.ok ⟨false, [], none, ["p1.patch", "p2.patch"], "/top"⟩))) :=
  ⟨by decide, apply_src_patches_format_behavior "srcd"
    ["# comment", "p1.patch", "", "p2.patch"]
    "p1.patch" "p2.patch" (fun _ => true) ⟨false, [], none, [], "/top"⟩ (by decide)⟩

lemma applySrcLoop_legacy_all_ok (patchOk : String → Bool) (entries : List String)
    (hall : ∀ p ∈ entries, patchOk p = true) (st : TreeState) :
    applySrcLoop ("1.0", none) patchOk entries st
      = Except.ok { st with applied := st.applied ++ entries } := by
  induction entries generalizing st with
  | nil => simp [applySrcLoop]
  | cons p rest ih =>
      have hp : patchOk p = true := hall p (List.mem_cons_self p rest)
      have hrest : ∀ q ∈ rest, patchOk q = true :=
        fun q hq => hall q (List.mem_cons_of_mem p hq)
      simp only [applySrcLoop, hp, if_true]
      rw [ih hrest]
      simp [List.append_assoc]

lemma directApplyLoop_all_ok (patchOk : String → Bool) (entries : List String)
    (hall : ∀ p ∈ entries, patchOk p = true) (st : TreeState) :
    directApplyLoop patchOk entries st
      = Except.ok { st with applied := st.applied ++ entries } := by
  induction entries generalizing st with
  | nil => simp [directApplyLoop]
  | cons p rest ih =>
      have hp : patchOk p = true := hall p (List.mem_cons_self p rest)
      have hrest : ∀ q ∈ rest, patchOk q = true :=
        fun q hq => hall q (List.mem_cons_of_mem p hq)
      simp only [directApplyLoop, hp, if_true]
      rw [ih hrest]
      simp [List.append_assoc]

lemma applySrcLoop_unknown_format (fmt : String × Option String)
    (h1 : (fmt.1 == "1.0") = false)
    (hq : fmt.2 ≠ some "quilt") (hn : fmt.2 ≠ some "native")
    (patchOk : String → Bool) (p : String) (rest : List String) (st : TreeState) :
    applySrcLoop fmt patchOk (p :: rest) st
      = Except.error (st, "Invalid deb format") := by
  have hq2 : (fmt.2 == some "quilt") = false := beq_eq_false_iff_ne.mpr hq
  have hn2 : (fmt.2 == some "native") = false := beq_eq_false_iff_ne.mpr hn
  simp only [applySrcLoop, h1, hq2, hn2, Bool.false_eq_true, if_false]

/-- C7 counterexample: on the unrecognized format `3.0 (unknown)` with a
one-entry series, `update_deb_folder` applies the patch directly and returns
successfully, while `apply_src_patches` raises — so an unrecognized format is
not fatal at both call sites, and the two sites do not branch identically. -/
theorem update_deb_folder_unknown_format_counterexample :
    update_deb_folder_patches "srcd" ("3.0", some "unknown")
        (some ["p1.patch"]) (fun _ => true) ⟨true, [], some [], [], "/top"⟩
      = Except.ok ⟨true, [], some [], ["p1.patch"], "/top"⟩
    ∧ apply_src_patches "srcd" ("3.0", some "unknown")
        (some ["p1.patch"]) (fun _ => true) ⟨true, [], some [], [], "/top"⟩
      = Except.error (⟨true, [], some [], [], "srcd"⟩, "Invalid deb format") :=
  ⟨rfl, rfl⟩

/-- C7 amended: `apply_src_patches` raises on a format that is neither
version `1.0` nor of type `quilt` or `native`, before applying or registering
anything; `update_deb_folder` instead applies every effective series entry
directly for every format other than `3.0 (quilt)` (raising on none of them),
and skips registration-format trees; both call sites process exactly the
stripped, comment-and-blank-filtered series entries in order. -/
theorem patch_call_sites_format_rules
    (srcdir : String) (fmt : String × Option String) (lines : List String)
    (patchOk : String → Bool) (st : TreeState)
    (hdir : st.patchesDirExists = true) :
    ((fmt.1 == "1.0") = false → fmt.2 ≠ some "quilt" → fmt.2 ≠ some "native" →
      ∀ p rest, seriesEntries lines = p :: rest →
      apply_src_patches srcdir fmt (some lines) patchOk st
        = Except.error ({ st with cwd := srcdir }, "Invalid deb format"))
    ∧ (¬ (fmt.1 = "3.0" ∧ fmt.2 = some "quilt") →
      (∀ p ∈ seriesEntries lines, patchOk p = true) →
      update_deb_folder_patches srcdir fmt (some lines) patchOk st
        = Except.ok { st with applied := st.applied ++ seriesEntries lines })
    ∧ (update_deb_folder_patches srcdir ("3.0", some "quilt") (some lines) patchOk st
        = Except.ok st)
    ∧ ((∀ p ∈ seriesEntries lines, patchOk p = true) →
      apply_src_patches srcdir ("1.0", none) (some lines) patchOk st
        = Except.ok { st with applied := st.applied ++ seriesEntries lines }) := by
  refine ⟨fun h1 hq hn p rest hs => ?_, fun hnotq hall => ?_, rfl, fun hall => ?_⟩
  · simp only [apply_src_patches, hdir, if_true, hs,
      applySrcLoop_unknown_format fmt h1 hq hn patchOk p rest]
  · have hcond : (fmt.2 == some "quilt" && fmt.1 == "3.0") = false := by
      rcases h2 : fmt.2 == some "quilt" with _ | _
      · rfl
      · rcases h1 : fmt.1 == "3.0" with _ | _
        · rfl
        · exact absurd ⟨eq_of_beq h1, eq_of_beq h2⟩ hnotq
    simp only [update_deb_folder_patches, hcond, Bool.false_eq_true, if_false,
      directApplyLoop_all_ok patchOk (seriesEntries lines) hall]
  · simp only [apply_src_patches, hdir, if_true,
      applySrcLoop_legacy_all_ok patchOk (seriesEntries lines) hall]

/-- Witness for C7's amended theorem at a concrete tree state and format. -/
theorem patch_call_sites_format_rules_witness :
    (⟨true, [], some [], [], "/top"⟩ : TreeState).patchesDirExists = true
    ∧ ((((("2.0", some "odd") : String × Option String).1 == "1.0") = false →
        (("2.0", some "odd") : String × Option String).2 ≠ some "quilt" →
        (("2.0", some "odd") : String × Option String).2 ≠ some "native" →
        ∀ p rest, seriesEntries ["p1.patch"] = p :: rest →
        apply_src_patches "srcd" ("2.0", some "odd") (some ["p1.patch"])
            (fun _ => true) ⟨true, [], some [], [], "/top"⟩
          = Except.error (⟨true, [], some [], [], "srcd"⟩, "Invalid deb format"))
      ∧ (¬ ((("2.0", some "odd") : String × Option String).1 = "3.0"
            ∧ (("2.0", some "odd") : String × Option String).2 = some "quilt") →
        (∀ p ∈ seriesEntries ["p1.patch"], (fun _ : String => true) p = true) →
        update_deb_folder_patches "srcd" ("2.0", some "odd") (some ["p1.patch"])
            (fun _ => true) ⟨true, [], some [], [], "/top"⟩
          = Except.ok ⟨true, [], some [], ["p1.patch"], "/top"⟩)
      ∧ (update_deb_folder_patches "srcd" ("3.0", some "quilt") (some ["p1.patch"])
            (fun _ => true) ⟨true, [], some [], [], "/top"⟩
          = Except.ok ⟨true, [], some [], [], "/top"⟩)
      ∧ ((∀ p ∈ seriesEntries ["p1.patch"], (fun _ : String => true) p = true) →
        apply_src_patches "srcd" ("1.0", none) (some ["p1.patch"])
            (fun _ => true) ⟨true, [], some [], [], "/top"⟩
          = Except.ok ⟨true, [], some [], ["p1.patch"], "/top"⟩)) :=
  ⟨rfl, patch_call_sites_format_rules "srcd" ("2.0", some "odd") ["p1.patch"]
    (fun _ => true) ⟨true, [], some [], [], "/top"⟩ rfl⟩

/-- C9 counterexample: with an empty artifact download area after the fetch
phase, `build_patch` does not raise — it logs and `return False`s, an
ordinary non-error return (the CLI entry point ignores it). -/
theorem build_patch_empty_downloads_counterexample :
    buildPatch "/top" "/tmp/patch_a" "/out/patch_output" "P1.patch" [] none none
        (fun _ => true) [] (Except.ok [])
      = Except.ok ⟨BuildResult.returnedFalse, "/top"⟩ := rfl

/-- C9 amended: when the download area is empty after the fetch phase,
`build_patch` returns `False` instead of raising; in every other case the
operation either raises an error carrying a message or fully succeeds,
producing the bundle at `PATCH_OUTPUT/patch_name` — there is no other
partial-success result. -/
theorem build_patch_outcome_dichotomy
    (initialCwd tmpdir patch_output patch_name : String)
    (dlFiles : List String) (pre_install post_install : Option String)
    (isfile : String → Bool) (stx_packages : List String)
    (debScripts : Except String (List String)) :
    (dlFiles = [] →
      buildPatch initialCwd tmpdir patch_output patch_name dlFiles
          pre_install post_install isfile stx_packages debScripts
        = Except.ok ⟨BuildResult.returnedFalse, initialCwd⟩)
    ∧ (dlFiles ≠ [] →
      (∃ e, buildPatch initialCwd tmpdir patch_output patch_name dlFiles
          pre_install post_install isfile stx_packages debScripts
        = Except.error e)
      ∨ buildPatch initialCwd tmpdir patch_output patch_name dlFiles
          pre_install post_install isfile stx_packages debScripts
        = Except.ok
            ⟨BuildResult.bundle (patch_output ++ "/" ++ patch_name), tmpdir⟩) := by
  constructor
  · intro h
    subst h
    rfl
  · intro hne
    cases dlFiles with
    | nil => exact absurd rfl hne
    | cons a as =>
        simp only [buildPatch, List.isEmpty_cons, Bool.false_eq_true, if_false]
        cases h1 : scriptCheck isfile pre_install with
        | error e => exact Or.inl ⟨e, rfl⟩
        | ok u1 =>
            cases h2 : scriptCheck isfile post_install with
            | error e => exact Or.inl ⟨e, rfl⟩
            | ok u2 =>
                cases h3 : (if stx_packages.contains "software" then debScripts
                    else Except.ok []) with
                | error e => exact Or.inl ⟨e, rfl⟩
                | ok l => exact Or.inr rfl

/-- Witness for C9's amended theorem: a non-empty download area with all
checks passing, where the theorem's second branch applies. -/
theorem build_patch_outcome_dichotomy_witness :
    (([ "a.deb" ] : List String) = [] →
      buildPatch "/top" "/tmp/patch_a" "/out/patch_output" "P1.patch" ["a.deb"]
          none none (fun _ => true) [] (Except.ok [])
        = Except.ok ⟨BuildResult.returnedFalse, "/top"⟩)
    ∧ (([ "a.deb" ] : List String) ≠ [] →
      (∃ e, buildPatch "/top" "/tmp/patch_a" "/out/patch_output" "P1.patch" ["a.deb"]
          none none (fun _ => true) [] (Except.ok [])
        = Except.error e)
      ∨ buildPatch "/top" "/tmp/patch_a" "/out/patch_output" "P1.patch" ["a.deb"]
          none none (fun _ => true) [] (Except.ok [])
        = Except.ok
            ⟨BuildResult.bundle ("/out/patch_output" ++ "/" ++ "P1.patch"), "/tmp/patch_a"⟩) :=
  build_patch_outcome_dichotomy "/top" "/tmp/patch_a" "/out/patch_output" "P1.patch"
    ["a.deb"] none none (fun _ => true) [] (Except.ok [])

lemma applySrcLoop_ok_cwd (fmt : String × Option String) (patchOk : String → Bool) :
    ∀ (entries : List String) (st st' : TreeState),
      applySrcLoop fmt patchOk entries st = Except.ok st' → st'.cwd = st.cwd := by
  intro entries
  induction entries with
  | nil =>
      intro st st' h
      simp only [applySrcLoop, Except.ok.injEq] at h
      rw [← h]
  | cons p rest ih =>
      intro st st' h
      simp only [applySrcLoop] at h
      split at h
      · split at h
        · exact (ih _ st' h).trans rfl
        · simp at h
      · split at h
        · exact (ih _ st' h).trans rfl
        · split at h
          · split at h
            · exact (ih _ st' h).trans rfl
            · simp at h
          · simp at h

lemma applySrcLoop_error_cwd (fmt : String × Option String) (patchOk : String → Bool) :
    ∀ (entries : List String) (st st' : TreeState) (msg : String),
      applySrcLoop fmt patchOk entries st = Except.error (st', msg) → st'.cwd = st.cwd := by
  intro entries
  induction entries with
  | nil =>
      intro st st' msg h
      simp [applySrcLoop] at h
  | cons p rest ih =>
      intro st st' msg h
      simp only [applySrcLoop] at h
      split at h
      · split at h
        · exact (ih _ st' msg h).trans rfl
        · simp only [Except.error.injEq, Prod.mk.injEq] at h
          rw [← h.1]
      · split at h
        · exact (ih _ st' msg h).trans rfl
        · split at h
          · split at h
            · exact (ih _ st' msg h).trans rfl
            · simp only [Except.error.injEq, Prod.mk.injEq] at h
              rw [← h.1]
          · simp only [Except.error.injEq, Prod.mk.injEq] at h
            rw [← h.1]

lemma directApplyLoop_ok_cwd (patchOk : String → Bool) :
    ∀ (entries : List String) (st st' : TreeState),
      directApplyLoop patchOk entries st = Except.ok st' → st'.cwd = st.cwd := by
  intro entries
  induction entries with
  | nil =>
      intro st st' h
      simp only [directApplyLoop, Except.ok.injEq] at h
      rw [← h]
  | cons p rest ih =>
      intro st st' h
      simp only [directApplyLoop] at h
      split at h
      · exact (ih _ st' h).trans rfl
      · simp at h

lemma directApplyLoop_error_cwd (patchOk : String → Bool) :
    ∀ (entries : List String) (st st' : TreeState) (msg : String),
      directApplyLoop patchOk entries st = Except.error (st', msg) → st'.cwd = st.cwd := by
  intro entries
  induction entries with
  | nil =>
      intro st st' msg h
      simp [directApplyLoop] at h
  | cons p rest ih =>
      intro st st' msg h
      simp only [directApplyLoop] at h
      split at h
      · exact (ih _ st' msg h).trans rfl
      · simp only [Except.error.injEq, Prod.mk.injEq] at h
        rw [← h.1]

/-- C8 counterexample: a failing `patch` command inside the
`apply_src_patches` loop raises with the process still in the source
directory — the previously saved working directory `/top` is not restored on
the error path (there is no try/finally around the loop). -/
theorem apply_src_patches_cwd_not_restored_counterexample :
    apply_src_patches "srcd" ("1.0", none) (some ["p1.patch"]) (fun _ => false)
        ⟨true, [], some [], [], "/top"⟩
      = Except.error (⟨true, [], some [], [], "srcd"⟩, "patch failed")
    ∧ ("srcd" : String) ≠ "/top" :=
  ⟨rfl, by decide⟩

/-- C8 amended: the working-directory save/restore holds on the success path
only — `apply_src_patches` and `update_deb_folder` restore the saved
directory when they return normally, but when a patch command raises mid-loop
the error escapes with the process still in the source directory; and
`build_patch` changes into its temporary directory and never restores the
prior directory, even on success. -/
theorem cwd_restoration_behavior
    (srcdir : String) (fmt : String × Option String)
    (seriesLines : Option (List String)) (patchOk : String → Bool)
    (st : TreeState) :
    (∀ st', apply_src_patches srcdir fmt seriesLines patchOk st = Except.ok st' →
      st'.cwd = st.cwd)
    ∧ (∀ st', update_deb_folder_patches srcdir fmt seriesLines patchOk st = Except.ok st' →
      st'.cwd = st.cwd)
    ∧ (∀ st' msg,
      apply_src_patches srcdir fmt seriesLines patchOk st = Except.error (st', msg) →
      st'.cwd = srcdir)
    ∧ (∀ st' msg,
      update_deb_folder_patches srcdir fmt seriesLines patchOk st = Except.error (st', msg) →
      st'.cwd = srcdir)
    ∧ (∀ icwd tmpdir po pn dl pre post isf sp ds out,
      buildPatch icwd tmpdir po pn dl pre post isf sp ds = Except.ok out →
      out.result ≠ BuildResult.returnedFalse → out.cwd = tmpdir) := by
  refine ⟨fun st' h => ?_, fun st' h => ?_, fun st' msg h => ?_, fun st' msg h => ?_,
    fun icwd tmpdir po pn dl pre post isf sp ds out h hres => ?_⟩
  · cases seriesLines with
    | none =>
        simp only [apply_src_patches, Except.ok.injEq] at h
        rw [← h]
    | some lines =>
        simp only [apply_src_patches] at h
        split at h
        · simp at h
        · next st3 heq =>
            simp only [Except.ok.injEq] at h
            rw [← h]
            split <;> rfl
  · cases seriesLines with
    | none =>
        simp only [update_deb_folder_patches, Except.ok.injEq] at h
        rw [← h]
    | some lines =>
        simp only [update_deb_folder_patches] at h
        split at h
        · simp only [Except.ok.injEq] at h
          rw [← h]
        · split at h
          · simp at h
          · next st2 heq =>
              simp only [Except.ok.injEq] at h
              rw [← h]
  · cases seriesLines with
    | none => simp [apply_src_patches] at h
    | some lines =>
        simp only [apply_src_patches] at h
        split at h
        · next e heq =>
            simp only [Except.error.injEq] at h
            rw [h] at heq
            exact applySrcLoop_error_cwd fmt patchOk (seriesEntries lines) _ st' msg heq
        · simp at h
  · cases seriesLines with
    | none => simp [update_deb_folder_patches] at h
    | some lines =>
        simp only [update_deb_folder_patches] at h
        split at h
        · simp at h
        · split at h
          · next e heq =>
              simp only [Except.error.injEq] at h
              rw [h] at heq
              exact directApplyLoop_error_cwd patchOk (seriesEntries lines) _ st' msg heq
          · simp at h
  · simp only [buildPatch] at h
    split at h
    · simp only [Except.ok.injEq] at h
      rw [← h] at hres
      exact absurd rfl hres
    · split at h
      · simp at h
      · split at h
        · simp at h
        · split at h
          · simp at h
          · simp only [Except.ok.injEq] at h
            rw [← h]

lemma pkgContribution_nonneg (git : GitQueries) (debfolder : String)
    (rd : RevisionData) : 0 ≤ pkgContribution git debfolder rd := by
  unfold pkgContribution
  split
  · split <;> positivity
  · exact le_refl 0

lemma srcContribution_nonneg (git : GitQueries) (md : MetaDataModel)
    (rd : RevisionData) (b : Int) (hb : srcContribution git md rd = Except.ok b) :
    0 ≤ b := by
  unfold srcContribution at hb
  split at hb
  · simp only [Except.ok.injEq] at hb
    rw [← hb]
  · split at hb
    · simp at hb
    · simp only [Except.ok.injEq] at hb
      rw [← hb]
      split <;> positivity

lemma gitRevContribution_nonneg (git : GitQueries) (rd : RevisionData) (c : Int)
    (hc : gitRevContribution git rd = Except.ok c) : 0 ≤ c := by
  unfold gitRevContribution at hc
  split at hc
  · simp only [Except.ok.injEq] at hc
    rw [← hc]
  · split at hc
    · simp at hc
    · split at hc
      · simp at hc
      · simp only [Except.ok.injEq] at hc
        rw [← hc]
        positivity

/-- C5 amended: parsing `2:1.4-3` yields epoch `2`, upstream `1.4`, debian
revision `3`; with no `revision` block the suffix is the empty string and the
changelog version is exactly the declared `2:1.4-3`; and whenever a
`revision` block is present and the computation succeeds, the suffix is the
optional distribution tag, a dot, and the accumulated revision integer —
non-negative whenever the declared `stx_patch` contribution (if any) is
non-negative (the git contributions are counts; a negative `stx_patch`
passes the int type check and makes the integer negative). -/
theorem version_and_revision_suffix (git : GitQueries) (debfolder : String) :
    parseDebVersion "2:1.4-3" = (some "2", "1.4", some "3")
    ∧ (∀ md : MetaDataModel, md.revision = none →
        set_revision git debfolder md = Except.ok ""
        ∧ changelog_version "2:1.4-3" "" = "2:1.4-3")
    ∧ (∀ (md : MetaDataModel) (rd : RevisionData) (t : Int), md.revision = some rd →
        revisionTotal git debfolder md rd = Except.ok t →
        set_revision git debfolder md
          = Except.ok (rd.dist.getD "" ++ "." ++ toString t)
        ∧ ((rd.stxPatch = none ∨
              ∃ k, rd.stxPatch = some (StxPatchVal.intVal k) ∧ 0 ≤ k) →
            0 ≤ t)) := by
  refine ⟨by decide, fun md h => ⟨?_, rfl⟩, fun md rd t hmd ht => ⟨?_, fun hstx => ?_⟩⟩
  · simp [set_revision, h]
  · simp [set_revision, hmd, ht]
  · unfold revisionTotal at ht
    split at ht
    · simp at ht
    · next b hb =>
        split at ht
        · simp at ht
        · next c hc =>
            split at ht
            · simp at ht
            · next d hd =>
                simp only [Except.ok.injEq] at ht
                have h1 := pkgContribution_nonneg git debfolder rd
                have h2 := srcContribution_nonneg git md rd b hb
                have h3 := gitRevContribution_nonneg git rd c hc
                have h4 : 0 ≤ d := by
                  unfold stxContribution at hd
                  rcases hstx with h | ⟨k, hk, hk0⟩
                  · rw [h] at hd
                    simp only [Except.ok.injEq] at hd
                    rw [← hd]
                  · rw [hk] at hd
                    simp only [Except.ok.injEq] at hd
                    rw [← hd]
                    exact hk0
                rw [← ht]
                positivity

/-- Witness for C5 at a concrete metadata model, git state and revision
block (an `stx_patch` of 4 and no other contributions). -/
theorem version_and_revision_suffix_witness :
    parseDebVersion "2:1.4-3" = (some "2", "1.4", some "3")
    ∧ (∀ md : MetaDataModel, md.revision = none →
        set_revision ⟨fun _ => 0, fun _ _ => 0, fun _ => 0⟩ "/deb" md = Except.ok ""
        ∧ changelog_version "2:1.4-3" "" = "2:1.4-3")
    ∧ (∀ (md : MetaDataModel) (rd : RevisionData) (t : Int), md.revision = some rd →
        revisionTotal ⟨fun _ => 0, fun _ _ => 0, fun _ => 0⟩ "/deb" md rd = Except.ok t →
        set_revision ⟨fun _ => 0, fun _ _ => 0, fun _ => 0⟩ "/deb" md
          = Except.ok (rd.dist.getD "" ++ "." ++ toString t)
        ∧ ((rd.stxPatch = none ∨
              ∃ k, rd.stxPatch = some (StxPatchVal.intVal k) ∧ 0 ≤ k) →
            0 ≤ t)) :=
  version_and_revision_suffix ⟨fun _ => 0, fun _ _ => 0, fun _ => 0⟩ "/deb"

/-- C5 counterexample: a declared `stx_patch` of `-5` passes the
`type(...) is int` check, so a revision block with no other contributions
accumulates the negative integer `-5` and `set_revision` returns the suffix
`".-5"` — the claimed unconditionally non-negative accumulated integer is
false. -/
theorem negative_stx_patch_suffix_counterexample :
    revisionTotal ⟨fun _ => 0, fun _ _ => 0, fun _ => 0⟩ "/deb"
        ⟨none, some ⟨none, false, none, none, none, some (StxPatchVal.intVal (-5))⟩⟩
        ⟨none, false, none, none, none, some (StxPatchVal.intVal (-5))⟩
      = Except.ok (-5)
    ∧ set_revision ⟨fun _ => 0, fun _ _ => 0, fun _ => 0⟩ "/deb"
        ⟨none, some ⟨none, false, none, none, none, some (StxPatchVal.intVal (-5))⟩⟩
      = Except.ok ".-5"
    ∧ (-5 : Int) < 0 :=
  ⟨rfl, rfl, by decide⟩

lemma pkgContribution_shift (git git' : GitQueries) (p : String)
    (hAll : git'.revListAll = git.revListAll)
    (hFrom : git'.revListFrom = git.revListFrom)
    (hstat : ∀ x, (git'.statusCount x : Int)
      = (git.statusCount x : Int) + (if x = p then 1 else 0))
    (debfolder : String) (rd : RevisionData) :
    pkgContribution git' debfolder rd
      = pkgContribution git debfolder rd + pkgDelta debfolder rd p := by
  unfold pkgContribution pkgDelta
  by_cases hp : rd.pkgGitRevCount
  · simp only [hp, if_true, true_and, hAll, hFrom]
    have := hstat debfolder
    by_cases hd : debfolder = p <;> simp [hd] at this ⊢ <;> omega
  · simp [hp]

lemma srcContribution_shift (git git' : GitQueries) (p : String)
    (hAll : git'.revListAll = git.revListAll)
    (hFrom : git'.revListFrom = git.revListFrom)
    (hstat : ∀ x, (git'.statusCount x : Int)
      = (git.statusCount x : Int) + (if x = p then 1 else 0))
    (md : MetaDataModel) (rd : RevisionData) (b : Int)
    (hb : srcContribution git md rd = Except.ok b) :
    srcContribution git' md rd = Except.ok (b + srcDelta md rd p) := by
  unfold srcContribution at hb ⊢
  split at hb
  · next hsrc =>
      simp only [Except.ok.injEq] at hb
      simp [hsrc, srcDelta, ← hb]
  · next s hsrc =>
      split at hb
      · simp at hb
      · next sp hsp =>
          simp only [Except.ok.injEq] at hb
          simp only [hsrc, hsp, srcDelta, hAll, hFrom, Except.ok.injEq]
          have := hstat sp
          rw [← hb]
          by_cases hd : sp = p
          · simp [hd] at this ⊢
            omega
          · simp [hd] at this ⊢
            omega

lemma gitRevContribution_shift (git git' : GitQueries) (p : String)
    (hFrom : git'.revListFrom = git.revListFrom)
    (hstat : ∀ x, (git'.statusCount x : Int)
      = (git.statusCount x : Int) + (if x = p then 1 else 0))
    (rd : RevisionData) (c : Int)
    (hc : gitRevContribution git rd = Except.ok c) :
    gitRevContribution git' rd = Except.ok (c + gitRevDelta rd p) := by
  unfold gitRevContribution at hc ⊢
  split at hc
  · next hg =>
      simp only [Except.ok.injEq] at hc
      simp [hg, gitRevDelta, ← hc]
  · next g hg =>
      split at hc
      · simp at hc
      · next d hd =>
          split at hc
          · simp at hc
          · next base hbase =>
              simp only [Except.ok.injEq] at hc
              simp only [hg, hd, hbase, gitRevDelta, hFrom, Except.ok.injEq]
              have := hstat d
              rw [← hc]
              by_cases hdp : d = p <;> simp [hdp] at this ⊢ <;> omega

/-- C6: with a commit-count contribution configured for a path `p`
(`PKG_GITREVCOUNT` on the debian folder, `SRC_GITREVCOUNT` on the declared
source path, or `GITREVCOUNT` on its `SRC_DIR`), one extra uncommitted change
reported under `p` — commit counts unchanged — strictly increases the
accumulated revision integer. -/
theorem dirty_tree_bumps_revision
    (git git' : GitQueries) (debfolder : String) (md : MetaDataModel)
    (rd : RevisionData) (p : String)
    (hAll : git'.revListAll = git.revListAll)
    (hFrom : git'.revListFrom = git.revListFrom)
    (hstat : ∀ x, (git'.statusCount x : Int)
      = (git.statusCount x : Int) + (if x = p then 1 else 0))
    (hcounted :
      (rd.pkgGitRevCount = true ∧ debfolder = p)
      ∨ (∃ s, rd.srcGitRevCount = some s ∧ md.src_path = some p)
      ∨ (∃ g, rd.gitRevCount = some g ∧ g.srcDir = some p ∧ ∃ b, g.baseSrcRev = some b))
    (t : Int) (ht : revisionTotal git debfolder md rd = Except.ok t) :
    ∃ t', revisionTotal git' debfolder md rd = Except.ok t' ∧ t < t' := by
  unfold revisionTotal at ht
  split at ht
  · simp at ht
  · next b hb =>
      split at ht
      · simp at ht
      · next c hc =>
          split at ht
          · simp at ht
          · next d hd =>
              simp only [Except.ok.injEq] at ht
              refine ⟨pkgContribution git' debfolder rd + (b + srcDelta md rd p)
                + (c + gitRevDelta rd p) + d, ?_, ?_⟩
              · unfold revisionTotal
                rw [srcContribution_shift git git' p hAll hFrom hstat md rd b hb,
                  gitRevContribution_shift git git' p hFrom hstat rd c hc, hd]
              · rw [← ht, pkgContribution_shift git git' p hAll hFrom hstat debfolder rd]
                have hd1 : 0 ≤ pkgDelta debfolder rd p := by
                  unfold pkgDelta; split <;> omega
                have hd2 : 0 ≤ srcDelta md rd p := by
                  unfold srcDelta; split
                  · split <;> omega
                  · omega
                have hd3 : 0 ≤ gitRevDelta rd p := by
                  unfold gitRevDelta; split
                  · split
                    · split <;> omega
                    · omega
                  · omega
                have hone : 1 ≤ pkgDelta debfolder rd p + srcDelta md rd p
                    + gitRevDelta rd p := by
                  rcases hcounted with ⟨h1, h2⟩ | ⟨s, h1, h2⟩ | ⟨g, h1, h2, bb, h3⟩
                  · have : pkgDelta debfolder rd p = 1 := by
                      simp [pkgDelta, h1, h2]
                    omega
                  · have : srcDelta md rd p = 1 := by
                      simp [srcDelta, h1, h2]
                    omega
                  · have : gitRevDelta rd p = 1 := by
                      simp [gitRevDelta, h1, h2, h3]
                    omega
                omega

/-- Witness for C6: a concrete revision block counting the debian folder,
before and after one uncommitted change appears there. -/
theorem dirty_tree_bumps_revision_witness :
    ∃ t', revisionTotal ⟨fun _ => 5, fun _ _ => 2, fun x => if x = "/deb" then 1 else 0⟩
        "/deb" ⟨none, none⟩ ⟨none, true, none, none, none, none⟩
      = Except.ok t' ∧ (5 : Int) < t' :=
  dirty_tree_bumps_revision
    ⟨fun _ => 5, fun _ _ => 2, fun _ => 0⟩
    ⟨fun _ => 5, fun _ _ => 2, fun x => if x = "/deb" then 1 else 0⟩
    "/deb" ⟨none, none⟩ ⟨none, true, none, none, none, none⟩ "/deb"
    rfl rfl (by intro x; by_cases h : x = "/deb" <;> simp [h])
    (Or.inl ⟨rfl, rfl⟩) 5 rfl

/-- C10: for every prior file-system state (in particular any residue of an
earlier partial assembly), the `package` prologue succeeds and leaves the
per-package work directory existing and empty — every strictly-below path is
gone — while paths outside the directory are untouched; this happens before
origin resolution. -/
theorem package_recreates_workdir_empty (fs : String → Bool) (packdir : String)
    (hwf : ∀ x, underDir packdir x = true → x ≠ packdir → fs x = true →
      fs packdir = true) :
    ∃ fs', packagePrepare fs packdir = Except.ok fs'
      ∧ fs' packdir = true
      ∧ (∀ x, underDir packdir x = true → x ≠ packdir → fs' x = false)
      ∧ (∀ x, underDir packdir x = false → fs' x = fs x) := by
  have hself : underDir packdir packdir = true := by
    simp [underDir]
  by_cases hp : fs packdir = true
  · refine ⟨fun x => if x = packdir then true else rmtree fs packdir x, ?_, ?_, ?_, ?_⟩
    · unfold packagePrepare mkdir
      rw [if_pos hp]
      have h0 : rmtree fs packdir packdir = false := by
        simp [rmtree, hself]
      simp [h0]
    · simp
    · intro x hx hne
      simp [hne, rmtree, hx]
    · intro x hx
      have hne : x ≠ packdir := by
        intro h
        rw [h, hself] at hx
        exact Bool.noConfusion hx
      simp [hne, rmtree, hx]
  · refine ⟨fun x => if x = packdir then true else fs x, ?_, ?_, ?_, ?_⟩
    · unfold packagePrepare mkdir
      rw [if_neg hp, if_neg hp]
    · simp
    · intro x hx hne
      simp only [hne, if_false, ite_eq_right_iff]
      rcases hfx : fs x with _ | _
      · simp [hne]
      · exact absurd (hwf x hx hne hfx) hp
    · intro x hx
      have hne : x ≠ packdir := by
        intro h
        rw [h, hself] at hx
        exact Bool.noConfusion hx
      simp [hne]

/-- Witness for C10: a prior state where the work directory `/b/p` exists and
holds a leftover file `/b/p/f`. -/
theorem package_recreates_workdir_empty_witness :
    ∃ fs', packagePrepare (fun x => x == "/b/p" || x == "/b/p/f") "/b/p"
        = Except.ok fs'
      ∧ fs' "/b/p" = true
      ∧ (∀ x, underDir "/b/p" x = true → x ≠ "/b/p" → fs' x = false)
      ∧ (∀ x, underDir "/b/p" x = false →
          fs' x = (fun x => x == "/b/p" || x == "/b/p/f") x) :=
  package_recreates_workdir_empty (fun x => x == "/b/p" || x == "/b/p/f") "/b/p"
    (fun _ _ _ _ => by decide)

/-- Witness for C8's amended theorem, instantiated at a concrete source
directory, format, series and tree state. -/
theorem cwd_restoration_behavior_witness :
    (∀ st', apply_src_patches "srcd" ("1.0", none) (some ["p1.patch"])
        (fun _ => true) ⟨true, [], some [], [], "/top"⟩ = Except.ok st' →
      st'.cwd = "/top")
    ∧ (∀ st', update_deb_folder_patches "srcd" ("1.0", none) (some ["p1.patch"])
        (fun _ => true) ⟨true, [], some [], [], "/top"⟩ = Except.ok st' →
      st'.cwd = "/top")
    ∧ (∀ st' msg, apply_src_patches "srcd" ("1.0", none) (some ["p1.patch"])
        (fun _ => true) ⟨true, [], some [], [], "/top"⟩ = Except.error (st', msg) →
      st'.cwd = "srcd")
    ∧ (∀ st' msg, update_deb_folder_patches "srcd" ("1.0", none) (some ["p1.patch"])
        (fun _ => true) ⟨true, [], some [], [], "/top"⟩ = Except.error (st', msg) →
      st'.cwd = "srcd")
    ∧ (∀ icwd tmpdir po pn dl pre post isf sp ds out,
      buildPatch icwd tmpdir po pn dl pre post isf sp ds = Except.ok out →
      out.result ≠ BuildResult.returnedFalse → out.cwd = tmpdir) :=
  cwd_restoration_behavior "srcd" ("1.0", none) (some ["p1.patch"])
    (fun _ => true) ⟨true, [], some [], [], "/top"⟩

end Stx

